import Mathlib

/-!
Shallow embedding of wallacegibbon/sysfs-monitor-tui (Go) for checking its
natural-language specification.

The repository contains two divergent versions of the monitor renderer:
the file internal/monitor/monitor.go (single-column full view, compact view
showing only the highest temperature) and an unnamed source file that is a
second version of monitor.go (two-column full view, compact view showing all
temperatures and warning/critical counts).  The spec follows the second,
feature-complete variant, and so does the test file monitor_test.go.  Both are
embedded here: namespace MonitorV1 holds internal/monitor/monitor.go, namespace
MonitorV2 holds the unnamed feature-complete variant.  Everything the two files
share verbatim (data records, sensors, adapters, sections, helpers) is defined
once, outside the two namespaces.

Modelling conventions:
- Go float64 becomes ℚ.  The program only compares, maxes and multiplies
  values obtained from integer sysfs readings divided by powers of ten, all of
  which ℚ represents exactly.
- Go strings become String.  fmt.Sprintf verbs are modelled by explicit
  formatting functions (natRepr for %d on a Nat, fmtFloat1 for %.1f,
  fmtFloat2 for %.2f, padLeft/padRight for width flags).
- lipgloss styling is modelled as wrapping the payload in SGR escape
  sequences (renderFg, renderBold, renderFaint).  The escape text itself never
  matters to any claim; what matters is which color is chosen and that the
  payload appears inside.
- Stateful methods with pointer receivers become functions returning the new
  value; errors become Except String.
-/

namespace SysMon

/-! ## Text helpers -/

/-- The decimal digit character of `n < 10` (ASCII `48 + n`). -/
def digitChar (n : Nat) : Char := Char.ofNat (48 + n)

/-- Fuel-driven decimal digits of a natural number, most significant first. -/
def natDigits : Nat → Nat → List Char
  | 0, _ => []
  | fuel + 1, n =>
    if n < 10 then [digitChar n] else natDigits fuel (n / 10) ++ [digitChar (n % 10)]

/-- Decimal rendering of a `Nat` (models Go `%d` on nonnegative ints). -/
def natRepr (n : Nat) : String := ⟨natDigits (n + 1) n⟩

/-- Decimal rendering of an `Int` (models Go `%d`). -/
def intRepr (i : Int) : String := (if i < 0 then "-" else "") ++ natRepr i.natAbs

/-- Two-digit zero-padded rendering, used by the `15:04:05` time layout. -/
def pad2 (n : Nat) : String := (if n < 10 then "0" else "") ++ natRepr n

/-- `⌊k·q + 1/2⌋`: `q` scaled by `k` and rounded to the nearest integer,
written with flooring integer division on the numerator and denominator so
that the kernel can evaluate it. -/
def qRoundScaled (k : ℤ) (q : ℚ) : ℤ :=
  Int.fdiv (2 * k * q.num + q.den) (2 * q.den)

/-- Models Go `fmt.Sprintf("%.1f", q)`: one digit after the decimal point.
Exact on the decimal values the program manipulates; Go rounding tie
behaviour is irrelevant to every value appearing in the claims. -/
def fmtFloat1 (q : ℚ) : String :=
  let n : ℤ := qRoundScaled 10 q
  (if n < 0 then "-" else "") ++ natRepr (n.natAbs / 10) ++ "." ++ natRepr (n.natAbs % 10)

/-- Models Go `fmt.Sprintf("%.2f", q)`: two digits after the decimal point. -/
def fmtFloat2 (q : ℚ) : String :=
  let n : ℤ := qRoundScaled 100 q
  (if n < 0 then "-" else "") ++ natRepr (n.natAbs / 100) ++ "." ++ pad2 (n.natAbs % 100)

/-- Right-justify to `w` characters (models Go `%6.1f`-style width padding,
applied to the already formatted number). -/
def padLeft (w : Nat) (s : String) : String :=
  ⟨List.replicate (w - s.data.length) ' ' ++ s.data⟩

/-- Left-justify to `w` characters (models Go `%-8s` / `%-20s`). -/
def padRight (w : Nat) (s : String) : String :=
  ⟨s.data ++ List.replicate (w - s.data.length) ' '⟩

/-- Models Go `strings.Join(ls, sep)`. -/
def joinSep (sep : String) : List String → String
  | [] => ""
  | [x] => x
  | x :: y :: xs => x ++ sep ++ joinSep sep (y :: xs)

/-- Concatenation of a list of strings (repeated `WriteString` on a builder). -/
def strConcat : List String → String
  | [] => ""
  | x :: xs => x ++ strConcat xs

/-- SGR 256-color foreground wrapping: models
`lipgloss.NewStyle().Foreground(lipgloss.Color(c)).Render(s)`. -/
def renderFg (c s : String) : String := "\x1b[38;5;" ++ c ++ "m" ++ s ++ "\x1b[0m"

/-- SGR bold wrapping: models `lipgloss.NewStyle().Bold(true).Render(s)`. -/
def renderBold (s : String) : String := "\x1b[1m" ++ s ++ "\x1b[0m"

/-- SGR faint wrapping: models `lipgloss.NewStyle().Faint(true).Render(s)`. -/
def renderFaint (s : String) : String := "\x1b[2m" ++ s ++ "\x1b[0m"

/-- The substring relation on strings. -/
def strSub (needle hay : String) : Prop := needle.data <:+: hay.data

instance (n h : String) : Decidable (strSub n h) :=
  inferInstanceAs (Decidable (n.data <:+: h.data))

/-- A single-line string: no newline character occurs in it. -/
def NLFree (s : String) : Prop := ('\n') ∉ s.data

instance (s : String) : Decidable (NLFree s) :=
  inferInstanceAs (Decidable (('\n') ∉ s.data))

/-- Number of newline-delimited lines of a rendered block. -/
def lineCount (s : String) : Nat := s.data.count '\n' + 1

/-- The first newline-delimited line of a rendered block. -/
def firstLineOf (s : String) : String := ⟨s.data.takeWhile (fun c => c != '\n')⟩

/-! ## Data model (monitor.go, identical in both versions) -/

/-- One temperature reading (struct `TemperatureSensor`, monitor.go). -/
structure TemperatureSensor where
  Name : String
  Value : ℚ
  High : ℚ
  Critical : ℚ
  Path : String
deriving DecidableEq

/-- The battery snapshot (struct `BatteryStatus`, monitor.go). -/
structure BatteryStatus where
  Capacity : Int := 0
  Status : String := ""
  Voltage : ℚ := 0
  Current : ℚ := 0
  Power : ℚ := 0
  Health : String := ""
  Temperature : ℚ := 0
  Energy : ℚ := 0
  CapacityLevel : String := ""
deriving DecidableEq

/-! ## Sensors (sensor.go) -/

/-- `GenericSensor` (sensor.go).  The refresh callback returns
`(value, warning, critical, error)`; here `Except` carries the error case. -/
structure GenericSensor where
  name : String := ""
  value : String := ""
  warning : Bool := false
  critical : Bool := false
  refreshFn : Option (Unit → Except String (String × Bool × Bool)) := none

/-- `NewGenericSensor` (sensor.go): value/warning/critical start zeroed. -/
def NewGenericSensor (name : String)
    (refreshFn : Unit → Except String (String × Bool × Bool)) : GenericSensor :=
  { name := name, refreshFn := some refreshFn }

/-- `(*GenericSensor).Refresh` (sensor.go lines 55-66).  Go mutates the
receiver and returns the error; here the new sensor state is returned next to
the `Except`.  A nil callback leaves the sensor unchanged and reports success;
a failing callback leaves the cached triple unchanged and propagates the
error; a succeeding callback replaces the cached triple. -/
def GenericSensor.Refresh (g : GenericSensor) : Except String Unit × GenericSensor :=
  match g.refreshFn with
  | some f =>
    match f () with
    | Except.error e => (Except.error e, g)
    | Except.ok (v, w, c) =>
      (Except.ok (), { g with value := v, warning := w, critical := c })
  | none => (Except.ok (), g)

/-! ## Adapters (adapters.go) -/

namespace TemperatureSensorAdapter

/-- `TemperatureSensorAdapter.Name` (adapters.go). -/
def Name (t : TemperatureSensor) : String := t.Name

/-- `TemperatureSensorAdapter.Value` (adapters.go): `%.1f°C`. -/
def Value (t : TemperatureSensor) : String := fmtFloat1 t.Value ++ "°C"

/-- `TemperatureSensorAdapter.Warning` (adapters.go line 18-20). -/
def Warning (t : TemperatureSensor) : Bool := t.Value ≥ t.High

/-- `TemperatureSensorAdapter.Critical` (adapters.go line 22-24). -/
def Critical (t : TemperatureSensor) : Bool := t.Value ≥ t.Critical

end TemperatureSensorAdapter

namespace BatterySensorAdapter

/-- `BatterySensorAdapter.Name` (adapters.go). -/
def Name (_ : BatteryStatus) : String := "Battery"

/-- `BatterySensorAdapter.Value` (adapters.go): `%d%%`. -/
def Value (b : BatteryStatus) : String := intRepr b.Capacity ++ "%"

/-- `BatterySensorAdapter.Warning` (adapters.go). -/
def Warning (b : BatteryStatus) : Bool := b.Capacity < 20

/-- `BatterySensorAdapter.Critical` (adapters.go). -/
def Critical (b : BatteryStatus) : Bool := b.Capacity < 10

end BatterySensorAdapter

/-- The `Sensor` interface (sensor.go) as the tagged union of its three
implementations in the repository: the two record adapters of adapters.go and
`GenericSensor`. -/
inductive Sensor where
  | temperature (t : TemperatureSensor)
  | battery (b : BatteryStatus)
  | generic (g : GenericSensor)

/-- Dispatch of `Name()`. -/
def Sensor.Name : Sensor → String
  | .temperature t => TemperatureSensorAdapter.Name t
  | .battery b => BatterySensorAdapter.Name b
  | .generic g => g.name

/-- Dispatch of `Value()`. -/
def Sensor.Value : Sensor → String
  | .temperature t => TemperatureSensorAdapter.Value t
  | .battery b => BatterySensorAdapter.Value b
  | .generic g => g.value

/-- Dispatch of `Warning()`. -/
def Sensor.Warning : Sensor → Bool
  | .temperature t => TemperatureSensorAdapter.Warning t
  | .battery b => BatterySensorAdapter.Warning b
  | .generic g => g.warning

/-- Dispatch of `Critical()`. -/
def Sensor.Critical : Sensor → Bool
  | .temperature t => TemperatureSensorAdapter.Critical t
  | .battery b => BatterySensorAdapter.Critical b
  | .generic g => g.critical

/-- Dispatch of `Refresh()`.  The two adapters are no-ops that report success
(adapters.go lines 26-30 and 53-56); the generic sensor runs its callback. -/
def Sensor.Refresh : Sensor → Except String Unit × Sensor
  | .temperature t => (Except.ok (), .temperature t)
  | .battery b => (Except.ok (), .battery b)
  | .generic g =>
    let r := g.Refresh
    (r.1, .generic r.2)

/-- `SensorGroup` (sensor.go). -/
structure SensorGroup where
  Name : String
  Sensors : List Sensor

/-! ## Monitor state and update (shared between both monitor.go versions) -/

/-- A wall-clock instant; only its `15:04:05` rendering is observable. -/
structure Time where
  hour : Nat
  minute : Nat
  second : Nat

/-- Models Go `t.Format("15:04:05")`. -/
def Time.format (t : Time) : String :=
  pad2 t.hour ++ ":" ++ pad2 t.minute ++ ":" ++ pad2 t.second

/-- `Monitor` (monitor.go).  Go `int` width/height come from terminal resize
events and are nonnegative. -/
structure Monitor where
  temperatureSensors : List TemperatureSensor
  batteryStatus : BatteryStatus
  extraGroups : List SensorGroup
  lastUpdate : Time
  width : Nat := 0
  height : Nat := 0

def compactHeightThreshold : Nat := 10

/-- The three bubbletea message kinds the monitor can receive. -/
inductive Msg where
  | windowSize (width height : Nat)
  | tick (t : Time)
  | key (k : String)

/-- The commands `Update` can return (`nil` or the re-armed tick timer). -/
inductive TeaCmd where
  | none
  | tick

/-- `(Monitor).updateSensors` (monitor.go lines 261-273, identical in both
versions).  The two data-source reads `ReadTemperatures()` and
`ReadBatteryStatus()` are external collaborators, so their results enter as
parameters.  Go refreshes every sensor of every extra group in place through
the interface pointer and discards the returned error
(`_ = sensor.Refresh()`); here each sensor is replaced by its post-refresh
state and the `Except` is dropped. -/
def Monitor.updateSensors (freshTemps : List TemperatureSensor)
    (freshBatt : BatteryStatus) (m : Monitor) : Monitor :=
  { m with
    temperatureSensors := freshTemps
    batteryStatus := freshBatt
    extraGroups := m.extraGroups.map fun g =>
      { g with Sensors := g.Sensors.map fun s => s.Refresh.2 } }

/-- `(Monitor).Update` (monitor.go lines 61-73, identical in both versions).
`now` stands for the `time.Now()` call in the tick branch. -/
def Monitor.Update (freshTemps : List TemperatureSensor) (freshBatt : BatteryStatus)
    (now : Time) : Msg → Monitor → Monitor × TeaCmd
  | .windowSize w h, m => ({ m with width := w, height := h }, .none)
  | .tick _, m => ({ m.updateSensors freshTemps freshBatt with lastUpdate := now }, .tick)
  | .key _, m => (m, .none)

/-! ## Battery data source (sysfs_battery reading, `ReadBatteryStatus`)

The file reads are external; what the core depends on is how the raw sysfs
integers become a `BatteryStatus`.  `BatteryRaw` holds the raw readings, with
`none` standing for a missing or unparsable file (in which case Go leaves the
field at its zero value). -/

/-- Raw sysfs battery readings in their on-disk units. -/
structure BatteryRaw where
  capacity : Option Int := none
  status : Option String := none
  voltageMicro : Option Int := none
  currentMicro : Option Int := none
  powerMicro : Option Int := none
  health : Option String := none
  tempDeci : Option Int := none
  energyMicro : Option Int := none
  capacityLevel : Option String := none

/-- The field-by-field reads of `ReadBatteryStatus` (lines 206-275): each raw
integer is converted from its sysfs unit, a missing or unparsable file leaving
the field at its zero value. -/
def rawBatteryRecord (raw : BatteryRaw) : BatteryStatus :=
  { Capacity := raw.capacity.getD 0
    Status := raw.status.getD ""
    Voltage := (raw.voltageMicro.getD 0 : ℚ) / 1000000
    Current := (raw.currentMicro.getD 0 : ℚ) / 1000000
    Power := (raw.powerMicro.getD 0 : ℚ) / 1000000
    Health := raw.health.getD ""
    Temperature := (raw.tempDeci.getD 0 : ℚ) / 10
    Energy := (raw.energyMicro.getD 0 : ℚ) / 1000000
    CapacityLevel := raw.capacityLevel.getD "" }

/-- Lines 244-247 of `ReadBatteryStatus`: when power is not reported but
voltage and current are available, derive it as their product. -/
def derivePower (s : BatteryStatus) : BatteryStatus :=
  if s.Power = 0 ∧ s.Voltage > 0 ∧ s.Current ≠ 0 then
    { s with Power := s.Voltage * s.Current }
  else s

/-- `ReadBatteryStatus` (lines 182-278).  `found` is whether a power-supply
entry of type `Battery` exists; without one the zero record (the
absent-battery sentinel) is returned. -/
def ReadBatteryStatus (found : Bool) (raw : BatteryRaw) : BatteryStatus :=
  if !found then {} else derivePower (rawBatteryRecord raw)

/-! ## Renderer pieces shared verbatim by both monitor versions -/

/-- Color pick for a temperature value (the `if`-chain repeated in both full
views and both compact views): red at or above critical, orange at or above
high, green below both. -/
def tempColor (value high crit : ℚ) : String :=
  if value ≥ crit then "9" else if value ≥ high then "214" else "42"

/-- Color pick for a battery capacity: red below 20, orange below 50,
green otherwise. -/
def capacityColor (c : Int) : String :=
  if c < 20 then "9" else if c < 50 then "214" else "42"

/-- Color pick for an extra-group sensor in the full views. -/
def sensorColor (s : Sensor) : String :=
  if s.Critical then "9" else if s.Warning then "214" else "42"

/-- The apostrophe character, for the quit hint text. -/
def squote : String := (Char.ofNat 39).toString

/-- One temperature row of the full view:
`fmt.Fprintf("  %-8s  %s\n", styled "%6.1f°C", path)`. -/
def tempLine (s : TemperatureSensor) : String :=
  "  " ++
    padRight 8 (renderFg (tempColor s.Value s.High s.Critical)
      (padLeft 6 (fmtFloat1 s.Value) ++ "°C")) ++
    "  " ++ s.Path ++ "\n"

/-- The Temperatures section (full view; V1 writes it into the single
builder, V2 into the left column — same text). -/
def tempSection (ts : List TemperatureSensor) : String :=
  renderBold "Temperatures" ++ "\n" ++
    (if ts.isEmpty then "  No temperature sensors found\n"
     else strConcat (ts.map tempLine))

/-- The Battery section (full view).  The record with zero capacity and empty
status is the absent-battery sentinel and renders as the notice; otherwise
capacity and status always print and each remaining field prints only when it
is set. -/
def batterySection (bat : BatteryStatus) : String :=
  renderBold "Battery" ++ "\n" ++
    (if bat.Capacity = 0 ∧ bat.Status = "" then "  No battery information\n"
     else
       "  Capacity: " ++
         renderFg (capacityColor bat.Capacity) (intRepr bat.Capacity ++ "%") ++ "\n" ++
       "  Status: " ++ bat.Status ++ "\n" ++
       (if bat.Voltage > 0 then "  Voltage: " ++ fmtFloat2 bat.Voltage ++ "V\n" else "") ++
       (if bat.Current ≠ 0 then "  Current: " ++ fmtFloat2 bat.Current ++ "A\n" else "") ++
       (if bat.Power > 0 then "  Power: " ++ fmtFloat2 bat.Power ++ "W\n" else "") ++
       (if bat.Health ≠ "" then "  Health: " ++ bat.Health ++ "\n" else "") ++
       (if bat.Temperature > 0 then
         "  Temperature: " ++ fmtFloat1 bat.Temperature ++ "°C\n" else "") ++
       (if bat.Energy > 0 then "  Energy: " ++ fmtFloat2 bat.Energy ++ " Wh\n" else "") ++
       (if bat.CapacityLevel ≠ "" then
         "  Capacity Level: " ++ bat.CapacityLevel ++ "\n" else ""))

/-- One extra sensor group section of the full view. -/
def extraGroupSection (g : SensorGroup) : String :=
  "\n" ++ renderBold g.Name ++ "\n" ++
    (if g.Sensors.isEmpty then "  No sensors\n"
     else strConcat (g.Sensors.map fun s =>
       "  " ++ padRight 20 s.Name ++ ": " ++ renderFg (sensorColor s) s.Value ++ "\n"))

/-- The title of the full view: bold, color 63, with one line of bottom
padding (a line of spaces as wide as the title) coming from
`PaddingBottom(1)`. -/
def titleBlock : String :=
  renderBold (renderFg "63" "System Status Monitor") ++ "\n" ++
    ⟨List.replicate 21 ' '⟩

/-- The full-view footer. -/
def fullFooter (t : Time) : String :=
  renderFaint ("Last updated: " ++ t.format ++ " | Press " ++ squote ++ "q" ++
    squote ++ " to quit")

/-- The compact-view footer (always the last compact line). -/
def compactFooter (t : Time) : String := renderFaint ("Updated: " ++ t.format)

/-- The battery portion of the compact first line (identical in both
versions): present when capacity is positive or status nonempty, with a
`" | "` separator when temperature text already occupies the line, and the
voltage appended when positive. -/
def compactBatteryPart (alreadyText : Bool) (bat : BatteryStatus) : String :=
  if bat.Capacity > 0 ∨ bat.Status ≠ "" then
    (if alreadyText then " | " else "") ++
    "🔋 " ++ renderFg (capacityColor bat.Capacity) (intRepr bat.Capacity ++ "%") ++
    " " ++ bat.Status ++
    (if bat.Voltage > 0 then " " ++ fmtFloat2 bat.Voltage ++ "V" else "")
  else ""

/-- Total sensor count over the extra groups (the summing loop of both
compact views). -/
def totalSensors (m : Monitor) : Nat :=
  (m.extraGroups.map fun g => g.Sensors.length).sum

/-! ## MonitorV1: src/internal/monitor/monitor.go (single-column full view,
highest-temperature compact view) -/

namespace MonitorV1

/-- The full view of monitor.go (lines 85-180): title, Temperatures section,
Battery section, one section per extra group, faint footer. -/
def fullView (m : Monitor) : String :=
  titleBlock ++ "\n\n" ++
    tempSection m.temperatureSensors ++ "\n" ++
    batterySection m.batteryStatus ++
    strConcat (m.extraGroups.map extraGroupSection) ++
    "\n" ++ fullFooter m.lastUpdate

/-- The temperature portion of the compact first line (monitor.go lines
190-207): only the highest reading is shown, colored by its own thresholds,
with the sensor count in parentheses when more than one.  The fold starts from
the zero `TemperatureSensor`, exactly like the Go loop starting from
`var highest TemperatureSensor`. -/
def compactTempPart (ts : List TemperatureSensor) : String :=
  if ts.isEmpty then ""
  else
    let highest := ts.foldl (fun h s => if s.Value > h.Value then s else h)
      ⟨"", 0, 0, 0, ""⟩
    "🌡 " ++ renderFg (tempColor highest.Value highest.High highest.Critical)
        (fmtFloat1 highest.Value ++ "°C") ++
      (if 1 < ts.length then " (" ++ natRepr ts.length ++ ")" else "")

/-- The compact first line: temperature portion then battery portion. -/
def compactFirstLine (m : Monitor) : String :=
  let tp := compactTempPart m.temperatureSensors
  tp ++ compactBatteryPart (!tp.isEmpty) m.batteryStatus

/-- The plain extra-groups summary of monitor.go (line 237): uncolored,
without warning/critical counts. -/
def extraSummary (m : Monitor) : String :=
  "Extra: " ++ natRepr m.extraGroups.length ++ " groups, " ++
    natRepr (totalSensors m) ++ " sensors"

/-- The slice `lines` the compact view accumulates (monitor.go 184-242):
optional first line, optional extra summary, footer. -/
def compactLines (m : Monitor) : List String :=
  (if (compactFirstLine m).isEmpty then [] else [compactFirstLine m]) ++
  (if m.extraGroups.isEmpty then [] else [extraSummary m]) ++
  [compactFooter m.lastUpdate]

/-- `compactView` (monitor.go 184-250): the lines truncated to 3 and joined
with newlines. -/
def compactView (m : Monitor) : String :=
  joinSep "\n" ((compactLines m).take 3)

/-- `View` (monitor.go 75-83): placeholder until the viewport is known, then
compact below the height threshold, full otherwise. -/
def View (m : Monitor) : String :=
  if m.width = 0 ∨ m.height = 0 then "Initializing..."
  else if m.height < compactHeightThreshold then compactView m
  else fullView m

end MonitorV1

/-! ## MonitorV2: the unnamed second monitor.go (two-column full view,
all-temperatures compact view with warning/critical counts) -/

namespace MonitorV2

/-- Newline-splitting of a block, accumulator-style. -/
def splitLinesAux : List Char → List Char → List String
  | [], acc => [⟨acc.reverse⟩]
  | c :: rest, acc =>
    if c = '\n' then ⟨acc.reverse⟩ :: splitLinesAux rest []
    else splitLinesAux rest (c :: acc)

/-- The newline-delimited lines of a block. -/
def splitLines (s : String) : List String := splitLinesAux s.data []

/-- Width of a block: the longest of its lines.  The terminal library
measures ANSI-aware display width; character count is used here, and no claim
depends on the padding widths. -/
def blockWidth (ls : List String) : Nat :=
  (ls.map fun l => l.data.length).foldl max 0

/-- Models `lipgloss.JoinHorizontal(lipgloss.Top, blocks...)`: each block is
split into lines, padded at the bottom with empty lines to the tallest block,
each line padded right to its block width, and the rows concatenated. -/
def joinHorizontal (bs : List String) : String :=
  let blocks := bs.map splitLines
  let h := (blocks.map List.length).foldl max 0
  let padded := blocks.map fun ls =>
    (ls ++ List.replicate (h - ls.length) "").map (padRight (blockWidth ls))
  joinSep "\n" ((List.range h).map fun i =>
    strConcat (padded.map fun ls => ls.getD i ""))

/-- The full view of the second monitor.go (lines 85-189): title, the
Temperatures and Battery sections joined side by side with four spaces
between, extra group sections, faint footer. -/
def fullView (m : Monitor) : String :=
  titleBlock ++ "\n\n" ++
    joinHorizontal
      [tempSection m.temperatureSensors, "    ", batterySection m.batteryStatus] ++
    "\n" ++
    strConcat (m.extraGroups.map extraGroupSection) ++
    "\n" ++ fullFooter m.lastUpdate

/-- The temperature portion of the compact first line (second monitor.go,
lines 198-214): every reading shown, each independently colored by its own
thresholds, separated by three spaces. -/
def compactTempPart (ts : List TemperatureSensor) : String :=
  if ts.isEmpty then ""
  else
    "🌡 " ++ joinSep "   " (ts.map fun s =>
      renderFg (tempColor s.Value s.High s.Critical) (fmtFloat1 s.Value ++ "°C"))

/-- The compact first line: temperature portion then battery portion. -/
def compactFirstLine (m : Monitor) : String :=
  let tp := compactTempPart m.temperatureSensors
  tp ++ compactBatteryPart (!tp.isEmpty) m.batteryStatus

/-- Sensors of all extra groups in order (the nested counting loops walk
exactly this list). -/
def allSensors (m : Monitor) : List Sensor :=
  (m.extraGroups.map SensorGroup.Sensors).flatten

/-- Number of critical sensors among the extra groups (lines 244-250). -/
def criticalCount (m : Monitor) : Nat :=
  (allSensors m).countP fun s => s.Critical

/-- Number of warning, not critical, sensors among the extra groups: the
`else if` branch counts a sensor as warning only when it is not critical. -/
def warningCount (m : Monitor) : Nat :=
  (allSensors m).countP fun s => !s.Critical && s.Warning

/-- Color of the extra-groups summary line (lines 252-257). -/
def extraColor (m : Monitor) : String :=
  if criticalCount m > 0 then "9"
  else if warningCount m > 0 then "214" else "42"

/-- The extra-groups summary text (lines 259-262), with the parenthetical
warning/critical counts exactly when either count is positive. -/
def extraSummary (m : Monitor) : String :=
  "Extra: " ++ natRepr m.extraGroups.length ++ " groups, " ++
    natRepr (totalSensors m) ++ " sensors" ++
  (if warningCount m > 0 ∨ criticalCount m > 0 then
    " (" ++ natRepr (warningCount m) ++ " warning, " ++
      natRepr (criticalCount m) ++ " critical)"
   else "")

/-- The slice `lines` the compact view accumulates (lines 193-268):
optional first line, optional colored extra summary, footer. -/
def compactLines (m : Monitor) : List String :=
  (if (compactFirstLine m).isEmpty then [] else [compactFirstLine m]) ++
  (if m.extraGroups.isEmpty then [] else [renderFg (extraColor m) (extraSummary m)]) ++
  [compactFooter m.lastUpdate]

/-- `compactView` (lines 193-276): the lines truncated to 3 and joined with
newlines. -/
def compactView (m : Monitor) : String :=
  joinSep "\n" ((compactLines m).take 3)

/-- `View` (lines 75-83): same dispatch as the first version. -/
def View (m : Monitor) : String :=
  if m.width = 0 ∨ m.height = 0 then "Initializing..."
  else if m.height < compactHeightThreshold then compactView m
  else fullView m

end MonitorV2

/-! ## Lemmas: single-line strings and substrings -/

theorem data_append (a b : String) : (a ++ b).data = a.data ++ b.data :=
  String.data_append a b

theorem NLFree_append {a b : String} (ha : NLFree a) (hb : NLFree b) :
    NLFree (a ++ b) := by
  simp only [NLFree, data_append, List.mem_append]
  rintro (h | h)
  · exact ha h
  · exact hb h

theorem NLFree_if {c : Prop} [Decidable c] {a b : String} (ha : NLFree a)
    (hb : NLFree b) : NLFree (if c then a else b) := by
  split <;> assumption

theorem natDigits_ne_nl {fuel n : Nat} {c : Char} (hc : c ∈ natDigits fuel n) :
    c ≠ '\n' := by
  induction fuel generalizing n with
  | zero => simp [natDigits] at hc
  | succ fuel ih =>
    rw [natDigits] at hc
    split at hc
    · next h =>
      simp only [List.mem_singleton] at hc
      subst hc
      have h10 : n = 0 ∨ n = 1 ∨ n = 2 ∨ n = 3 ∨ n = 4 ∨ n = 5 ∨ n = 6 ∨ n = 7 ∨
          n = 8 ∨ n = 9 := by omega
      rcases h10 with rfl | rfl | rfl | rfl | rfl | rfl | rfl | rfl | rfl | rfl <;> decide
    · rcases List.mem_append.1 hc with h | h
      · exact ih h
      · simp only [List.mem_singleton] at h
        subst h
        have hlt : n % 10 < 10 := Nat.mod_lt n (by omega)
        have h10 : n % 10 = 0 ∨ n % 10 = 1 ∨ n % 10 = 2 ∨ n % 10 = 3 ∨ n % 10 = 4 ∨
            n % 10 = 5 ∨ n % 10 = 6 ∨ n % 10 = 7 ∨ n % 10 = 8 ∨ n % 10 = 9 := by omega
        rcases h10 with h | h | h | h | h | h | h | h | h | h <;> rw [digitChar, h] <;> decide

theorem NLFree_natRepr (n : Nat) : NLFree (natRepr n) := by
  intro h
  exact natDigits_ne_nl h rfl

theorem NLFree_intRepr (i : Int) : NLFree (intRepr i) :=
  NLFree_append (NLFree_if (by decide) (by decide)) (NLFree_natRepr _)

theorem NLFree_pad2 (n : Nat) : NLFree (pad2 n) :=
  NLFree_append (NLFree_if (by decide) (by decide)) (NLFree_natRepr _)

theorem NLFree_fmtFloat1 (q : ℚ) : NLFree (fmtFloat1 q) := by
  refine NLFree_append (NLFree_append (NLFree_append (NLFree_if ?_ ?_) ?_) ?_) ?_ <;>
    first | decide | exact NLFree_natRepr _

theorem NLFree_fmtFloat2 (q : ℚ) : NLFree (fmtFloat2 q) := by
  refine NLFree_append (NLFree_append (NLFree_append (NLFree_if ?_ ?_) ?_) ?_) ?_ <;>
    first | decide | exact NLFree_natRepr _ | exact NLFree_pad2 _

theorem NLFree_renderFg {c s : String} (hc : NLFree c) (hs : NLFree s) :
    NLFree (renderFg c s) :=
  NLFree_append (NLFree_append (NLFree_append (NLFree_append (by decide) hc)
    (by decide)) hs) (by decide)

theorem NLFree_renderFaint {s : String} (hs : NLFree s) : NLFree (renderFaint s) :=
  NLFree_append (NLFree_append (by decide) hs) (by decide)

theorem NLFree_timeFormat (t : Time) : NLFree t.format := by
  refine NLFree_append (NLFree_append (NLFree_append (NLFree_append ?_ ?_) ?_) ?_) ?_ <;>
    first | decide | exact NLFree_pad2 _

theorem NLFree_joinSep {sep : String} {ls : List String} (hsep : NLFree sep)
    (h : ∀ l ∈ ls, NLFree l) : NLFree (joinSep sep ls) := by
  induction ls with
  | nil =>
    rw [joinSep]
    decide
  | cons x xs ih =>
    cases xs with
    | nil => exact h x (by simp)
    | cons y ys =>
      rw [joinSep]
      exact NLFree_append (NLFree_append (h x (by simp)) hsep)
        (ih fun l hl => h l (by simp [hl]))

theorem NLFree_tempColor (v h c : ℚ) : NLFree (tempColor v h c) := by
  rw [tempColor]
  exact NLFree_if (by decide) (NLFree_if (by decide) (by decide))

theorem NLFree_capacityColor (c : Int) : NLFree (capacityColor c) := by
  rw [capacityColor]
  exact NLFree_if (by decide) (NLFree_if (by decide) (by decide))

theorem count_nl_eq_zero {s : String} (h : NLFree s) : s.data.count '\n' = 0 :=
  List.count_eq_zero.2 h

/-- Joining single-line strings with newlines yields exactly one newline less
than the number of strings (at least one line even for the empty join). -/
theorem count_nl_joinSep {ls : List String} (h : ∀ l ∈ ls, NLFree l) :
    (joinSep "\n" ls).data.count '\n' + 1 = max 1 ls.length := by
  induction ls with
  | nil => decide
  | cons x xs ih =>
    cases xs with
    | nil =>
      rw [joinSep]
      have := count_nl_eq_zero (h x (by simp))
      simp [this]
    | cons y ys =>
      rw [joinSep, data_append, data_append, List.count_append, List.count_append]
      have hx := count_nl_eq_zero (h x (by simp))
      have ihy := ih fun l hl => h l (by simp [hl])
      have hnl : ("\n" : String).data.count '\n' = 1 := by decide
      simp only [hx, hnl, List.length_cons] at ihy ⊢
      omega

theorem strSub_trans {a b c : String} (h₁ : strSub a b) (h₂ : strSub b c) :
    strSub a c := List.IsInfix.trans h₁ h₂

theorem strSub_appendL {n b : String} (a : String) (h : strSub n b) :
    strSub n (a ++ b) := by
  rw [strSub, data_append]
  exact h.trans (List.suffix_append a.data b.data).isInfix

theorem strSub_appendR {n a : String} (b : String) (h : strSub n a) :
    strSub n (a ++ b) := by
  rw [strSub, data_append]
  exact h.trans (List.prefix_append a.data b.data).isInfix

theorem strSub_refl (s : String) : strSub s s := List.infix_refl s.data

/-- A member is a substring of the separator-joined list. -/
theorem strSub_joinSep_mem {sep x : String} {ls : List String} (hx : x ∈ ls) :
    strSub x (joinSep sep ls) := by
  induction ls with
  | nil => simp at hx
  | cons a rest ih =>
    rcases List.mem_cons.1 hx with rfl | hmem
    · cases rest with
      | nil => exact strSub_refl _
      | cons b bs =>
        rw [joinSep]
        exact strSub_appendR _ (strSub_appendR _ (strSub_refl _))
    · cases rest with
      | nil => simp at hmem
      | cons b bs =>
        rw [joinSep]
        exact strSub_appendL _ (ih hmem)

theorem takeWhile_append_of_all {p : Char → Bool} {xs : List Char} (ys : List Char)
    (h : ∀ x ∈ xs, p x) : (xs ++ ys).takeWhile p = xs ++ ys.takeWhile p := by
  induction xs with
  | nil => simp
  | cons a xs ih =>
    rw [List.cons_append, List.takeWhile_cons, if_pos (h a (by simp)),
      ih fun x hx => h x (by simp [hx]), List.cons_append]

/-- A substring of a single-line prefix survives taking the first line of the
whole. -/
theorem strSub_firstLineOf {n a s : String} (ha : NLFree a) (hn : strSub n a)
    (zl : List Char) (hs : s.data = a.data ++ zl) : strSub n (firstLineOf s) := by
  rw [firstLineOf, hs]
  have hall : ∀ c ∈ a.data, (c != '\n') = true := fun c hc => by
    simp only [bne_iff_ne, ne_eq]
    exact fun heq => ha (heq ▸ hc)
  rw [takeWhile_append_of_all zl hall]
  show n.data <:+: a.data ++ zl.takeWhile fun c => c != '\n'
  exact hn.trans (List.prefix_append a.data _).isInfix

/-! ## Lemmas: every compact line is a single line -/

theorem NLFree_compactBatteryPart {bat : BatteryStatus} (b : Bool)
    (h : NLFree bat.Status) : NLFree (compactBatteryPart b bat) := by
  rw [compactBatteryPart]
  repeat' first
    | apply NLFree_append
    | apply NLFree_if
    | apply NLFree_renderFg
  all_goals first
    | decide
    | exact h
    | exact NLFree_capacityColor _
    | exact NLFree_intRepr _
    | exact NLFree_natRepr _

theorem NLFree_compactFooter (t : Time) : NLFree (compactFooter t) :=
  NLFree_renderFaint (NLFree_append (by decide) (NLFree_timeFormat t))

theorem NLFree_tempValueStyled (s : TemperatureSensor) :
    NLFree (renderFg (tempColor s.Value s.High s.Critical) (fmtFloat1 s.Value ++ "°C")) :=
  NLFree_renderFg (NLFree_tempColor _ _ _)
    (NLFree_append (NLFree_fmtFloat1 _) (by decide))

namespace MonitorV1

theorem NLFree_compactTempPartV1 (ts : List TemperatureSensor) :
    NLFree (compactTempPart ts) := by
  rw [compactTempPart]
  split
  · decide
  · exact NLFree_append (NLFree_append (by decide) (NLFree_tempValueStyled _))
      (NLFree_if (NLFree_append (NLFree_append (by decide) (NLFree_natRepr _))
        (by decide)) (by decide))

theorem NLFree_compactFirstLineV1 {m : Monitor} (h : NLFree m.batteryStatus.Status) :
    NLFree (compactFirstLine m) :=
  NLFree_append (NLFree_compactTempPartV1 _) (NLFree_compactBatteryPart _ h)

theorem NLFree_extraSummaryV1 (m : Monitor) : NLFree (extraSummary m) := by
  refine NLFree_append (NLFree_append (NLFree_append (NLFree_append ?_ ?_) ?_) ?_) ?_ <;>
    first | decide | exact NLFree_natRepr _

theorem NLFree_compactLinesV1 {m : Monitor} (h : NLFree m.batteryStatus.Status) :
    ∀ l ∈ compactLines m, NLFree l := by
  intro l hl
  rw [compactLines] at hl
  rcases List.mem_append.1 hl with hl | hl
  · rcases List.mem_append.1 hl with hl | hl
    · split at hl
      · simp at hl
      · simp only [List.mem_singleton] at hl
        exact hl ▸ NLFree_compactFirstLineV1 h
    · split at hl
      · simp at hl
      · simp only [List.mem_singleton] at hl
        exact hl ▸ NLFree_extraSummaryV1 m
  · simp only [List.mem_singleton] at hl
    exact hl ▸ NLFree_compactFooter _

end MonitorV1

namespace MonitorV2

theorem NLFree_compactTempPartV2 (ts : List TemperatureSensor) :
    NLFree (compactTempPart ts) := by
  rw [compactTempPart]
  split
  · decide
  · refine NLFree_append (by decide) (NLFree_joinSep (by decide) ?_)
    intro l hl
    rcases List.mem_map.1 hl with ⟨s, _, rfl⟩
    exact NLFree_tempValueStyled s

theorem NLFree_compactFirstLineV2 {m : Monitor} (h : NLFree m.batteryStatus.Status) :
    NLFree (compactFirstLine m) :=
  NLFree_append (NLFree_compactTempPartV2 _) (NLFree_compactBatteryPart _ h)

theorem NLFree_extraSummaryV2 (m : Monitor) : NLFree (extraSummary m) := by
  rw [extraSummary]
  repeat' first
    | apply NLFree_append
    | apply NLFree_if
  all_goals first
    | decide
    | exact NLFree_natRepr _

theorem NLFree_extraColor (m : Monitor) : NLFree (extraColor m) := by
  rw [extraColor]
  exact NLFree_if (by decide) (NLFree_if (by decide) (by decide))

theorem NLFree_compactLinesV2 {m : Monitor} (h : NLFree m.batteryStatus.Status) :
    ∀ l ∈ compactLines m, NLFree l := by
  intro l hl
  rw [compactLines] at hl
  rcases List.mem_append.1 hl with hl | hl
  · rcases List.mem_append.1 hl with hl | hl
    · split at hl
      · simp at hl
      · simp only [List.mem_singleton] at hl
        exact hl ▸ NLFree_compactFirstLineV2 h
    · split at hl
      · simp at hl
      · simp only [List.mem_singleton] at hl
        exact hl ▸ NLFree_renderFg (NLFree_extraColor m) (NLFree_extraSummaryV2 m)
  · simp only [List.mem_singleton] at hl
    exact hl ▸ NLFree_compactFooter _

end MonitorV2

/-! ## Claims -/

/-- The compact join of single-line strings never exceeds three lines. -/
theorem lineCount_compact_le {ls : List String} (h : ∀ l ∈ ls, NLFree l) :
    lineCount (joinSep "\n" (ls.take 3)) ≤ 3 := by
  have hall : ∀ l ∈ ls.take 3, NLFree l := fun l hl => h l (List.take_subset 3 ls hl)
  have hcount := count_nl_joinSep hall
  have hlen : (ls.take 3).length ≤ 3 := ls.length_take_le 3
  rw [lineCount, hcount]
  omega

/-- C1: for every monitor state whose battery status text is a single line,
both compact renderers emit at most 3 newline-delimited lines, and `render`
with nonzero width and height below the threshold does too. -/
theorem c1_compact_at_most_three_lines (m : Monitor)
    (h : NLFree m.batteryStatus.Status) :
    lineCount (MonitorV2.compactView m) ≤ 3 ∧
    lineCount (MonitorV1.compactView m) ≤ 3 ∧
    (m.width ≠ 0 → m.height ≠ 0 → m.height < 10 →
      lineCount (MonitorV2.View m) ≤ 3 ∧ lineCount (MonitorV1.View m) ≤ 3) := by
  have h2 : lineCount (MonitorV2.compactView m) ≤ 3 := by
    rw [MonitorV2.compactView]
    exact lineCount_compact_le (MonitorV2.NLFree_compactLinesV2 h)
  have h1 : lineCount (MonitorV1.compactView m) ≤ 3 := by
    rw [MonitorV1.compactView]
    exact lineCount_compact_le (MonitorV1.NLFree_compactLinesV1 h)
  refine ⟨h2, h1, fun hw hh hlt => ?_⟩
  have hlt' : m.height < compactHeightThreshold := hlt
  rw [MonitorV2.View, if_neg (not_or.2 ⟨hw, hh⟩), if_pos hlt',
    MonitorV1.View, if_neg (not_or.2 ⟨hw, hh⟩), if_pos hlt']
  exact ⟨h2, h1⟩

/-- Witness for C1 on a state exercising all three compact lines in a small
viewport. -/
theorem c1_witness :
    lineCount (MonitorV2.View
      { temperatureSensors := [⟨"CPU", 65, 80, 100, "tz0"⟩, ⟨"GPU", 90, 80, 100, "tz1"⟩]
        batteryStatus := { Capacity := 85, Status := "Charging", Voltage := 4 }
        extraGroups := [⟨"G", [Sensor.generic ⟨"s", "v", false, false, none⟩]⟩]
        lastUpdate := ⟨1, 2, 3⟩, width := 80, height := 5 }) ≤ 3 ∧
    lineCount (MonitorV1.View
      { temperatureSensors := [⟨"CPU", 65, 80, 100, "tz0"⟩, ⟨"GPU", 90, 80, 100, "tz1"⟩]
        batteryStatus := { Capacity := 85, Status := "Charging", Voltage := 4 }
        extraGroups := [⟨"G", [Sensor.generic ⟨"s", "v", false, false, none⟩]⟩]
        lastUpdate := ⟨1, 2, 3⟩, width := 80, height := 5 }) ≤ 3 :=
  (c1_compact_at_most_three_lines _ (by decide)).2.2
    (by decide) (by decide) (by decide)

theorem isEmpty_false_of_data_cons {s : String} {c : Char} {cs : List Char}
    (h : s.data = c :: cs) : s.isEmpty = false := by
  rw [Bool.eq_false_iff]
  intro he
  rw [String.isEmpty_iff] at he
  rw [he] at h
  exact List.cons_ne_nil c cs h.symm

/-- When the join of some lines starts with a given first line, the whole
rendering starts with that line's characters. -/
theorem joinSep_nl_data_cons (x : String) (xs : List String) :
    ∃ zl, (joinSep "\n" (x :: xs)).data = x.data ++ zl := by
  cases xs with
  | nil => exact ⟨[], by simp [joinSep]⟩
  | cons y ys =>
    refine ⟨("\n" ++ joinSep "\n" (y :: ys)).data, ?_⟩
    rw [joinSep]
    rw [show x ++ "\n" ++ joinSep "\n" (y :: ys) = x ++ ("\n" ++ joinSep "\n" (y :: ys))
      from by rw [String.append_assoc]]
    exact data_append ..

/-- With at least one temperature present, the compact rendering of the
feature-complete monitor starts with its temperature portion. -/
theorem MonitorV2.compactView_data_of_temps {m : Monitor}
    (h : m.temperatureSensors.isEmpty = false) :
    ∃ zl, (MonitorV2.compactView m).data =
      (MonitorV2.compactTempPart m.temperatureSensors).data ++ zl := by
  have htp : MonitorV2.compactTempPart m.temperatureSensors =
      "🌡 " ++ joinSep "   " (m.temperatureSensors.map fun s =>
        renderFg (tempColor s.Value s.High s.Critical) (fmtFloat1 s.Value ++ "°C")) := by
    rw [MonitorV2.compactTempPart, if_neg (by simp [h])]
  have hcons : ∃ cs, (MonitorV2.compactTempPart m.temperatureSensors).data =
      '🌡' :: cs := by
    rw [htp, data_append]
    exact ⟨' ' :: (joinSep "   " _).data, rfl⟩
  obtain ⟨cs, hcs⟩ := hcons
  have hfl : MonitorV2.compactFirstLine m =
      MonitorV2.compactTempPart m.temperatureSensors ++
        compactBatteryPart (!(MonitorV2.compactTempPart m.temperatureSensors).isEmpty)
          m.batteryStatus := rfl
  have hfldata : ∃ bl, (MonitorV2.compactFirstLine m).data =
      (MonitorV2.compactTempPart m.temperatureSensors).data ++ bl :=
    ⟨_, by rw [hfl, data_append]⟩
  obtain ⟨bl, hbl⟩ := hfldata
  have hfe : (MonitorV2.compactFirstLine m).isEmpty = false :=
    isEmpty_false_of_data_cons (by rw [hbl, hcs]; rfl)
  have hlines : MonitorV2.compactLines m = MonitorV2.compactFirstLine m ::
      ((if m.extraGroups.isEmpty then []
        else [renderFg (MonitorV2.extraColor m) (MonitorV2.extraSummary m)]) ++
       [compactFooter m.lastUpdate]) := by
    rw [MonitorV2.compactLines, if_neg (by simp [hfe])]
    rfl
  rw [MonitorV2.compactView, hlines, List.take_succ_cons]
  obtain ⟨zl, hzl⟩ := joinSep_nl_data_cons (MonitorV2.compactFirstLine m) _
  exact ⟨bl ++ zl, by rw [hzl, hbl, List.append_assoc]⟩

set_option maxHeartbeats 1000000 in
/-- C2: the compact renderer shows every temperature reading on its first
line, each formatted by its own value and colored by its own thresholds. -/
theorem c2_compact_shows_all_temperatures (m : Monitor) (t : TemperatureSensor)
    (ht : t ∈ m.temperatureSensors) :
    strSub (renderFg (tempColor t.Value t.High t.Critical) (fmtFloat1 t.Value ++ "°C"))
      (firstLineOf (MonitorV2.compactView m)) := by
  have hne : m.temperatureSensors.isEmpty = false := by
    cases hts : m.temperatureSensors with
    | nil => rw [hts] at ht; simp at ht
    | cons a rest => rfl
  have htp : MonitorV2.compactTempPart m.temperatureSensors =
      "🌡 " ++ joinSep "   " (m.temperatureSensors.map fun s =>
        renderFg (tempColor s.Value s.High s.Critical) (fmtFloat1 s.Value ++ "°C")) := by
    rw [MonitorV2.compactTempPart, if_neg (by simp [hne])]
  have hsub : strSub (renderFg (tempColor t.Value t.High t.Critical)
      (fmtFloat1 t.Value ++ "°C")) (MonitorV2.compactTempPart m.temperatureSensors) := by
    rw [htp]
    have hmem := List.mem_map_of_mem
      (fun s => renderFg (tempColor s.Value s.High s.Critical) (fmtFloat1 s.Value ++ "°C")) ht
    exact strSub_appendL _ (strSub_joinSep_mem hmem)
  obtain ⟨zl, hzl⟩ := MonitorV2.compactView_data_of_temps hne
  exact strSub_firstLineOf (MonitorV2.NLFree_compactTempPartV2 _) hsub zl hzl

set_option maxHeartbeats 4000000 in
/-- Witness for C2 at the two records named by the claim: 65.0°C (high 80,
critical 100) and 72.5°C (high 85, critical 105); the first line carries both
formatted readings. -/
theorem c2_witness :
    strSub (renderFg (tempColor 65 80 100) (fmtFloat1 65 ++ "°C"))
      (firstLineOf (MonitorV2.compactView
        { temperatureSensors :=
            [⟨"CPU", 65, 80, 100, "tz0"⟩, ⟨"GPU", mkRat 145 2, 85, 105, "tz1"⟩]
          batteryStatus := {}, extraGroups := [], lastUpdate := ⟨1, 2, 3⟩ })) ∧
    strSub (renderFg (tempColor (mkRat 145 2) 85 105) (fmtFloat1 (mkRat 145 2) ++ "°C"))
      (firstLineOf (MonitorV2.compactView
        { temperatureSensors :=
            [⟨"CPU", 65, 80, 100, "tz0"⟩, ⟨"GPU", mkRat 145 2, 85, 105, "tz1"⟩]
          batteryStatus := {}, extraGroups := [], lastUpdate := ⟨1, 2, 3⟩ })) ∧
    strSub "65.0°C" (firstLineOf (MonitorV2.compactView
      { temperatureSensors :=
          [⟨"CPU", 65, 80, 100, "tz0"⟩, ⟨"GPU", mkRat 145 2, 85, 105, "tz1"⟩]
        batteryStatus := {}, extraGroups := [], lastUpdate := ⟨1, 2, 3⟩ })) ∧
    strSub "72.5°C" (firstLineOf (MonitorV2.compactView
      { temperatureSensors :=
          [⟨"CPU", 65, 80, 100, "tz0"⟩, ⟨"GPU", mkRat 145 2, 85, 105, "tz1"⟩]
        batteryStatus := {}, extraGroups := [], lastUpdate := ⟨1, 2, 3⟩ })) :=
  ⟨c2_compact_shows_all_temperatures
     { temperatureSensors :=
         [⟨"CPU", 65, 80, 100, "tz0"⟩, ⟨"GPU", mkRat 145 2, 85, 105, "tz1"⟩]
       batteryStatus := {}, extraGroups := [], lastUpdate := ⟨1, 2, 3⟩ }
     ⟨"CPU", 65, 80, 100, "tz0"⟩ (List.mem_cons_self _ _),
   c2_compact_shows_all_temperatures
     { temperatureSensors :=
         [⟨"CPU", 65, 80, 100, "tz0"⟩, ⟨"GPU", mkRat 145 2, 85, 105, "tz1"⟩]
       batteryStatus := {}, extraGroups := [], lastUpdate := ⟨1, 2, 3⟩ }
     ⟨"GPU", mkRat 145 2, 85, 105, "tz1"⟩
     (List.mem_cons_of_mem _ (List.mem_cons_self _ _)),
   by decide, by decide⟩

theorem infix_extR {l a : List Char} (b : List Char) (h : l <:+: a) : l <:+: a ++ b :=
  h.trans (List.prefix_append a b).isInfix

theorem infix_extL {l b : List Char} (a : List Char) (h : l <:+: b) : l <:+: a ++ b :=
  h.trans (List.suffix_append a b).isInfix

theorem strSub_renderBold (s : String) : strSub s (renderBold s) := by
  rw [renderBold, strSub, data_append, data_append]
  exact infix_extR _ (infix_extL _ (List.infix_refl s.data))

theorem splitLinesAux_append {xs : List Char} (h : ∀ c ∈ xs, c ≠ '\n')
    (acc rest : List Char) :
    MonitorV2.splitLinesAux (xs ++ '\n' :: rest) acc =
      (⟨acc.reverse ++ xs⟩ : String) :: MonitorV2.splitLinesAux rest [] := by
  induction xs generalizing acc with
  | nil =>
    rw [List.nil_append, MonitorV2.splitLinesAux, if_pos rfl]
    simp
  | cons c cs ih =>
    rw [List.cons_append, MonitorV2.splitLinesAux, if_neg (h c (by simp)),
      ih (fun x hx => h x (by simp [hx])) (c :: acc)]
    congr 1
    simp

/-- Splitting a block whose first line is newline-free peels that line off. -/
theorem splitLines_head {a : String} (r : String) (ha : NLFree a) :
    MonitorV2.splitLines (a ++ "\n" ++ r) = a :: MonitorV2.splitLines r := by
  have hdata : (a ++ "\n" ++ r).data = a.data ++ '\n' :: r.data := by
    rw [data_append, data_append]
    simp
  rw [MonitorV2.splitLines, hdata,
    splitLinesAux_append (fun c hc heq => ha (heq ▸ hc)) [] r.data]
  rfl

theorem strSub_joinSep_head {n x : String} (xs : List String) (h : strSub n x) :
    strSub n (joinSep "\n" (x :: xs)) := by
  obtain ⟨z, hz⟩ := joinSep_nl_data_cons x xs
  rw [strSub, hz]
  exact infix_extR _ h

/-- The horizontal join of three blocks contains each block's first line. -/
theorem strSub_joinHorizontal {b1 b2 b3 : String} {h1 h2 h3 : String}
    {t1 t2 t3 : List String}
    (e1 : MonitorV2.splitLines b1 = h1 :: t1)
    (e2 : MonitorV2.splitLines b2 = h2 :: t2)
    (e3 : MonitorV2.splitLines b3 = h3 :: t3)
    {n : String}
    (hn : strSub n h1 ∨ strSub n h2 ∨ strSub n h3) :
    strSub n (MonitorV2.joinHorizontal [b1, b2, b3]) := by
  rw [MonitorV2.joinHorizontal]
  simp only [List.map_cons, List.map_nil, e1, e2, e3]
  set ht : Nat := (List.foldl max 0
    [(h1 :: t1).length, (h2 :: t2).length, (h3 :: t3).length]) with hht
  have hpos : 0 < ht := by
    have h01 : max 0 (h1 :: t1).length = (h1 :: t1).length := Nat.max_eq_right (Nat.zero_le _)
    have : (h1 :: t1).length ≤ ht := by
      rw [hht]
      show (h1 :: t1).length ≤ max (max (max 0 (h1 :: t1).length) _) _
      calc (h1 :: t1).length ≤ max 0 (h1 :: t1).length := Nat.le_max_right _ _
        _ ≤ max (max 0 (h1 :: t1).length) (h2 :: t2).length := Nat.le_max_left _ _
        _ ≤ _ := Nat.le_max_left _ _
    calc 0 < (h1 :: t1).length := by simp
      _ ≤ ht := this
  obtain ⟨k, hk⟩ := Nat.exists_eq_succ_of_ne_zero (Nat.pos_iff_ne_zero.1 hpos)
  rw [hk, List.range_succ_eq_map, List.map_cons]
  apply strSub_joinSep_head
  show strSub n (padRight (MonitorV2.blockWidth (h1 :: t1)) h1 ++
    (padRight (MonitorV2.blockWidth (h2 :: t2)) h2 ++
      (padRight (MonitorV2.blockWidth (h3 :: t3)) h3 ++ "")))
  have hpad : ∀ (w : Nat) (s : String), strSub s (padRight w s) := fun w s =>
    infix_extR _ (List.infix_refl s.data)
  rcases hn with hn | hn | hn
  · exact strSub_appendR _ (strSub_trans hn (hpad _ h1))
  · exact strSub_appendL _ (strSub_appendR _ (strSub_trans hn (hpad _ h2)))
  · exact strSub_appendL _ (strSub_appendL _ (strSub_appendR _
      (strSub_trans hn (hpad _ h3))))

theorem MonitorV2.mem_allSensors {m : Monitor} {s : Sensor} :
    s ∈ MonitorV2.allSensors m ↔ ∃ g ∈ m.extraGroups, s ∈ g.Sensors := by
  rw [MonitorV2.allSensors, List.mem_flatten]
  constructor
  · rintro ⟨l, hl, hs⟩
    rcases List.mem_map.1 hl with ⟨g, hg, rfl⟩
    exact ⟨g, hg, hs⟩
  · rintro ⟨g, hg, hs⟩
    exact ⟨g.Sensors, List.mem_map_of_mem _ hg, hs⟩

theorem MonitorV2.criticalCount_pos {m : Monitor} :
    0 < MonitorV2.criticalCount m ↔
      ∃ g ∈ m.extraGroups, ∃ s ∈ g.Sensors, s.Critical = true := by
  rw [MonitorV2.criticalCount, List.countP_pos_iff]
  constructor
  · rintro ⟨s, hs, hc⟩
    rcases MonitorV2.mem_allSensors.1 hs with ⟨g, hg, hsg⟩
    exact ⟨g, hg, s, hsg, hc⟩
  · rintro ⟨g, hg, s, hsg, hc⟩
    exact ⟨s, MonitorV2.mem_allSensors.2 ⟨g, hg, hsg⟩, hc⟩

theorem MonitorV2.warningCount_pos {m : Monitor} :
    0 < MonitorV2.warningCount m ↔
      ∃ g ∈ m.extraGroups, ∃ s ∈ g.Sensors, (!s.Critical && s.Warning) = true := by
  rw [MonitorV2.warningCount, List.countP_pos_iff]
  constructor
  · rintro ⟨s, hs, hc⟩
    rcases MonitorV2.mem_allSensors.1 hs with ⟨g, hg, hsg⟩
    exact ⟨g, hg, s, hsg, hc⟩
  · rintro ⟨g, hg, s, hsg, hc⟩
    exact ⟨s, MonitorV2.mem_allSensors.2 ⟨g, hg, hsg⟩, hc⟩

/-- C3: with at least one extra group, the compact renderer emits the summary
line right before the footer: the `Extra:` text colored red exactly when some
sensor of some extra group is critical, orange exactly when some sensor is
warning and none critical, green exactly when neither, and the parenthetical
warning/critical counts are appended exactly when some sensor is warning or
critical. -/
theorem c3_extra_summary_line (m : Monitor) (h : m.extraGroups ≠ []) :
    (∃ pre, MonitorV2.compactLines m =
        pre ++ [renderFg (MonitorV2.extraColor m) (MonitorV2.extraSummary m),
          compactFooter m.lastUpdate] ∧ pre.length ≤ 1) ∧
    (MonitorV2.extraColor m = "9" ↔
      ∃ g ∈ m.extraGroups, ∃ s ∈ g.Sensors, s.Critical = true) ∧
    (MonitorV2.extraColor m = "214" ↔
      ((∃ g ∈ m.extraGroups, ∃ s ∈ g.Sensors, s.Warning = true) ∧
        ¬ ∃ g ∈ m.extraGroups, ∃ s ∈ g.Sensors, s.Critical = true)) ∧
    (MonitorV2.extraColor m = "42" ↔
      ((¬ ∃ g ∈ m.extraGroups, ∃ s ∈ g.Sensors, s.Warning = true) ∧
        ¬ ∃ g ∈ m.extraGroups, ∃ s ∈ g.Sensors, s.Critical = true)) ∧
    ((MonitorV2.warningCount m > 0 ∨ MonitorV2.criticalCount m > 0) ↔
      ∃ g ∈ m.extraGroups, ∃ s ∈ g.Sensors, (s.Warning || s.Critical) = true) := by
  have hge : m.extraGroups.isEmpty = false := by
    cases hg : m.extraGroups with
    | nil => exact absurd hg h
    | cons a l => rfl
  have hstruct : ∃ pre, MonitorV2.compactLines m =
      pre ++ [renderFg (MonitorV2.extraColor m) (MonitorV2.extraSummary m),
        compactFooter m.lastUpdate] ∧ pre.length ≤ 1 := by
    have hgne : ¬ (m.extraGroups.isEmpty = true) := by simp [hge]
    refine ⟨if (MonitorV2.compactFirstLine m).isEmpty then []
      else [MonitorV2.compactFirstLine m], ?_, ?_⟩
    · rw [MonitorV2.compactLines, if_neg hgne]
      simp
    · split <;> simp
  have hWnC : ∀ (hnc : ¬ ∃ g ∈ m.extraGroups, ∃ s ∈ g.Sensors, s.Critical = true),
      ((∃ g ∈ m.extraGroups, ∃ s ∈ g.Sensors, (!s.Critical && s.Warning) = true) ↔
        ∃ g ∈ m.extraGroups, ∃ s ∈ g.Sensors, s.Warning = true) := by
    intro hnc
    constructor
    · rintro ⟨g, hg, s, hs, hb⟩
      rw [Bool.and_eq_true] at hb
      exact ⟨g, hg, s, hs, hb.2⟩
    · rintro ⟨g, hg, s, hs, hw⟩
      refine ⟨g, hg, s, hs, ?_⟩
      have hc : s.Critical = false := by
        cases hcs : s.Critical with
        | false => rfl
        | true => exact absurd ⟨g, hg, s, hs, hcs⟩ hnc
      rw [hc, hw]
      rfl
  refine ⟨hstruct, ?_⟩
  by_cases hA : 0 < MonitorV2.criticalCount m
  · have hcolor : MonitorV2.extraColor m = "9" := by
      rw [MonitorV2.extraColor, if_pos hA]
    have hA' := MonitorV2.criticalCount_pos.1 hA
    refine ⟨⟨fun _ => hA', fun _ => hcolor⟩, ?_, ?_, ?_⟩
    · constructor
      · intro h9
        rw [hcolor] at h9
        exact absurd h9 (by decide)
      · rintro ⟨_, hnc⟩
        exact absurd hA' hnc
    · constructor
      · intro h9
        rw [hcolor] at h9
        exact absurd h9 (by decide)
      · rintro ⟨_, hnc⟩
        exact absurd hA' hnc
    · exact ⟨fun _ => by
        rcases hA' with ⟨g, hg, s, hs, hc⟩
        exact ⟨g, hg, s, hs, by rw [hc, Bool.or_true]⟩,
        fun _ => Or.inr hA⟩
  · have hnc : ¬ ∃ g ∈ m.extraGroups, ∃ s ∈ g.Sensors, s.Critical = true :=
      fun hc => hA (MonitorV2.criticalCount_pos.2 hc)
    by_cases hW : 0 < MonitorV2.warningCount m
    · have hcolor : MonitorV2.extraColor m = "214" := by
        rw [MonitorV2.extraColor, if_neg hA, if_pos hW]
      have hW' := (hWnC hnc).1 (MonitorV2.warningCount_pos.1 hW)
      refine ⟨?_, ⟨fun _ => ⟨hW', hnc⟩, fun _ => hcolor⟩, ?_, ?_⟩
      · constructor
        · intro h9
          rw [hcolor] at h9
          exact absurd h9 (by decide)
        · intro hc
          exact absurd hc hnc
      · constructor
        · intro h42
          rw [hcolor] at h42
          exact absurd h42 (by decide)
        · rintro ⟨hnw, _⟩
          exact absurd hW' hnw
      · refine ⟨fun _ => ?_, fun _ => Or.inl hW⟩
        rcases hW' with ⟨g, hg, s, hs, hw⟩
        exact ⟨g, hg, s, hs, by rw [hw, Bool.true_or]⟩
    · have hcolor : MonitorV2.extraColor m = "42" := by
        rw [MonitorV2.extraColor, if_neg hA, if_neg hW]
      have hnw : ¬ ∃ g ∈ m.extraGroups, ∃ s ∈ g.Sensors, s.Warning = true :=
        fun hw => hW (MonitorV2.warningCount_pos.2 ((hWnC hnc).2 hw))
      refine ⟨?_, ?_, ⟨fun _ => ⟨hnw, hnc⟩, fun _ => hcolor⟩, ?_⟩
      · constructor
        · intro h9
          rw [hcolor] at h9
          exact absurd h9 (by decide)
        · intro hc
          exact absurd hc hnc
      · constructor
        · intro h214
          rw [hcolor] at h214
          exact absurd h214 (by decide)
        · rintro ⟨hw, _⟩
          exact absurd hw hnw
      · refine ⟨fun hor => ?_, fun hex => ?_⟩
        · rcases hor with hw | hc
          · exact absurd hw (by omega)
          · exact absurd hc (by omega)
        · rcases hex with ⟨g, hg, s, hs, hb⟩
          rw [Bool.or_eq_true] at hb
          rcases hb with hw | hc
          · exact absurd ⟨g, hg, s, hs, hw⟩ hnw
          · exact absurd ⟨g, hg, s, hs, hc⟩ hnc

/-- Witness for C3: one extra group with a single warning, non-critical
sensor yields the orange summary with the parenthetical counts. -/
theorem c3_witness :
    MonitorV2.extraColor
      { temperatureSensors := [], batteryStatus := {}
        extraGroups := [⟨"G", [Sensor.generic ⟨"w", "v", true, false, none⟩]⟩]
        lastUpdate := ⟨0, 0, 0⟩ } = "214" ∧
    (MonitorV2.warningCount
      { temperatureSensors := [], batteryStatus := {}
        extraGroups := [⟨"G", [Sensor.generic ⟨"w", "v", true, false, none⟩]⟩]
        lastUpdate := ⟨0, 0, 0⟩ } > 0 ∨
     MonitorV2.criticalCount
      { temperatureSensors := [], batteryStatus := {}
        extraGroups := [⟨"G", [Sensor.generic ⟨"w", "v", true, false, none⟩]⟩]
        lastUpdate := ⟨0, 0, 0⟩ } > 0) := by
  have h := c3_extra_summary_line
    { temperatureSensors := [], batteryStatus := {}
      extraGroups := [⟨"G", [Sensor.generic ⟨"w", "v", true, false, none⟩]⟩]
      lastUpdate := ⟨0, 0, 0⟩ } (List.cons_ne_nil _ _)
  refine ⟨h.2.2.1.2 ⟨⟨_, List.mem_cons_self _ _, _, List.mem_cons_self _ _, rfl⟩, ?_⟩,
    h.2.2.2.2.2 ⟨_, List.mem_cons_self _ _, _, List.mem_cons_self _ _, rfl⟩⟩
  rintro ⟨g, hg, s, hs, hc⟩
  rcases List.mem_singleton.1 hg with rfl
  rcases List.mem_singleton.1 hs with rfl
  exact Bool.false_ne_true hc

theorem strSub_header_tempSection (ts : List TemperatureSensor) :
    strSub "Temperatures" (tempSection ts) := by
  rw [tempSection]
  exact strSub_appendR _ (strSub_appendR _ (strSub_renderBold _))

theorem strSub_header_batterySection (bat : BatteryStatus) :
    strSub "Battery" (batterySection bat) := by
  rw [batterySection]
  exact strSub_appendR _ (strSub_appendR _ (strSub_renderBold _))

theorem strSub_tempSection_fullViewV1 {n : String} (m : Monitor)
    (h : strSub n (tempSection m.temperatureSensors)) :
    strSub n (MonitorV1.fullView m) := by
  rw [MonitorV1.fullView]
  exact strSub_appendR _ (strSub_appendR _ (strSub_appendR _ (strSub_appendR _
    (strSub_appendR _ (strSub_appendL _ h)))))

theorem strSub_batterySection_fullViewV1 {n : String} (m : Monitor)
    (h : strSub n (batterySection m.batteryStatus)) :
    strSub n (MonitorV1.fullView m) := by
  rw [MonitorV1.fullView]
  exact strSub_appendR _ (strSub_appendR _ (strSub_appendR _ (strSub_appendL _ h)))

/-- The two-column full view contains any substring of one of the two column
headers. -/
theorem strSub_headers_fullViewV2 {n : String} (m : Monitor)
    (h : strSub n (renderBold "Temperatures") ∨ strSub n (renderBold "Battery")) :
    strSub n (MonitorV2.fullView m) := by
  rw [MonitorV2.fullView]
  refine strSub_appendR _ (strSub_appendR _ (strSub_appendR _ (strSub_appendR _
    (strSub_appendL _ ?_))))
  have e1 := splitLines_head
    (if m.temperatureSensors.isEmpty then "  No temperature sensors found\n"
     else strConcat (m.temperatureSensors.map tempLine))
    (show NLFree (renderBold "Temperatures") by decide)
  have e2 : MonitorV2.splitLines "    " = ["    "] := rfl
  have e3 := splitLines_head
    (if m.batteryStatus.Capacity = 0 ∧ m.batteryStatus.Status = "" then
      "  No battery information\n"
     else
       "  Capacity: " ++
         renderFg (capacityColor m.batteryStatus.Capacity)
           (intRepr m.batteryStatus.Capacity ++ "%") ++ "\n" ++
       "  Status: " ++ m.batteryStatus.Status ++ "\n" ++
       (if m.batteryStatus.Voltage > 0 then
         "  Voltage: " ++ fmtFloat2 m.batteryStatus.Voltage ++ "V\n" else "") ++
       (if m.batteryStatus.Current ≠ 0 then
         "  Current: " ++ fmtFloat2 m.batteryStatus.Current ++ "A\n" else "") ++
       (if m.batteryStatus.Power > 0 then
         "  Power: " ++ fmtFloat2 m.batteryStatus.Power ++ "W\n" else "") ++
       (if m.batteryStatus.Health ≠ "" then
         "  Health: " ++ m.batteryStatus.Health ++ "\n" else "") ++
       (if m.batteryStatus.Temperature > 0 then
         "  Temperature: " ++ fmtFloat1 m.batteryStatus.Temperature ++ "°C\n" else "") ++
       (if m.batteryStatus.Energy > 0 then
         "  Energy: " ++ fmtFloat2 m.batteryStatus.Energy ++ " Wh\n" else "") ++
       (if m.batteryStatus.CapacityLevel ≠ "" then
         "  Capacity Level: " ++ m.batteryStatus.CapacityLevel ++ "\n" else ""))
    (show NLFree (renderBold "Battery") by decide)
  refine strSub_joinHorizontal e1 e2 e3 ?_
  rcases h with h | h
  · exact Or.inl h
  · exact Or.inr (Or.inr h)

/-- C4: `render` returns the `Initializing...` placeholder while either
viewport dimension is zero; with a known viewport it delegates to the compact
view below 10 lines and to the full view at 10 or more, whose output carries
the `Temperatures` and `Battery` section headers. -/
theorem c4_view_dispatch (m : Monitor) :
    ((m.width = 0 ∨ m.height = 0) →
      MonitorV1.View m = "Initializing..." ∧ MonitorV2.View m = "Initializing...") ∧
    (m.width ≠ 0 → m.height ≠ 0 → m.height < 10 →
      MonitorV1.View m = MonitorV1.compactView m ∧
      MonitorV2.View m = MonitorV2.compactView m) ∧
    (m.width ≠ 0 → m.height ≠ 0 → 10 ≤ m.height →
      MonitorV1.View m = MonitorV1.fullView m ∧
      MonitorV2.View m = MonitorV2.fullView m ∧
      strSub "Temperatures" (MonitorV1.View m) ∧ strSub "Battery" (MonitorV1.View m) ∧
      strSub "Temperatures" (MonitorV2.View m) ∧ strSub "Battery" (MonitorV2.View m)) := by
  refine ⟨fun h => ?_, fun hw hh hlt => ?_, fun hw hh hge => ?_⟩
  · rw [MonitorV1.View, if_pos h, MonitorV2.View, if_pos h]
    exact ⟨rfl, rfl⟩
  · have hlt' : m.height < compactHeightThreshold := hlt
    rw [MonitorV1.View, if_neg (not_or.2 ⟨hw, hh⟩), if_pos hlt',
      MonitorV2.View, if_neg (not_or.2 ⟨hw, hh⟩), if_pos hlt']
    exact ⟨rfl, rfl⟩
  · have hge' : ¬ m.height < compactHeightThreshold := not_lt.2 hge
    have hv1 : MonitorV1.View m = MonitorV1.fullView m := by
      rw [MonitorV1.View, if_neg (not_or.2 ⟨hw, hh⟩), if_neg hge']
    have hv2 : MonitorV2.View m = MonitorV2.fullView m := by
      rw [MonitorV2.View, if_neg (not_or.2 ⟨hw, hh⟩), if_neg hge']
    rw [hv1, hv2]
    exact ⟨rfl, rfl,
      strSub_tempSection_fullViewV1 m (strSub_header_tempSection _),
      strSub_batterySection_fullViewV1 m (strSub_header_batterySection _),
      strSub_headers_fullViewV2 m (Or.inl (strSub_renderBold _)),
      strSub_headers_fullViewV2 m (Or.inr (strSub_renderBold _))⟩

/-- Witness for C4 in the three dispatch regimes at concrete viewports. -/
theorem c4_witness :
    (MonitorV1.View ⟨[], {}, [], ⟨0, 0, 0⟩, 0, 7⟩ = "Initializing..." ∧
     MonitorV2.View ⟨[], {}, [], ⟨0, 0, 0⟩, 0, 7⟩ = "Initializing...") ∧
    (MonitorV1.View ⟨[], {}, [], ⟨0, 0, 0⟩, 80, 5⟩ =
      MonitorV1.compactView ⟨[], {}, [], ⟨0, 0, 0⟩, 80, 5⟩) ∧
    (strSub "Temperatures" (MonitorV2.View ⟨[], {}, [], ⟨0, 0, 0⟩, 80, 20⟩) ∧
     strSub "Battery" (MonitorV2.View ⟨[], {}, [], ⟨0, 0, 0⟩, 80, 20⟩)) :=
  ⟨(c4_view_dispatch _).1 (Or.inl rfl),
   ((c4_view_dispatch _).2.1 (by decide) (by decide) (by decide)).1,
   ((c4_view_dispatch _).2.2 (by decide) (by decide) (by decide)).2.2.2.2.1,
   ((c4_view_dispatch _).2.2 (by decide) (by decide) (by decide)).2.2.2.2.2⟩

/-- C5: the record with zero capacity and empty status is the absent-battery
sentinel: the full view renders the notice and no battery field (in
particular no `0%`), the compact battery portion is empty, and with no
temperatures and no extra groups the compact output is exactly the
`Updated:` footer line. -/
theorem c5_absent_battery_sentinel (m : Monitor)
    (hc : m.batteryStatus.Capacity = 0) (hs : m.batteryStatus.Status = "") :
    batterySection m.batteryStatus =
      renderBold "Battery" ++ "\n" ++ "  No battery information\n" ∧
    ¬ strSub "0%" (batterySection m.batteryStatus) ∧
    strSub "No battery information" (MonitorV1.fullView m) ∧
    (∀ b : Bool, compactBatteryPart b m.batteryStatus = "") ∧
    (m.temperatureSensors = [] → m.extraGroups = [] →
      MonitorV1.compactView m = compactFooter m.lastUpdate ∧
      MonitorV2.compactView m = compactFooter m.lastUpdate) := by
  have hsec : batterySection m.batteryStatus =
      renderBold "Battery" ++ "\n" ++ "  No battery information\n" := by
    rw [batterySection, if_pos ⟨hc, hs⟩]
  have hcbp : ∀ b : Bool, compactBatteryPart b m.batteryStatus = "" := by
    intro b
    rw [compactBatteryPart, if_neg]
    rintro (h0 | hne)
    · rw [hc] at h0
      exact absurd h0 (by decide)
    · exact hne hs
  refine ⟨hsec, ?_, ?_, hcbp, fun ht hg => ?_⟩
  · rw [hsec]
    decide
  · exact strSub_batterySection_fullViewV1 m (by rw [hsec]; decide)
  · constructor
    · rw [MonitorV1.compactView, MonitorV1.compactLines, MonitorV1.compactFirstLine,
        MonitorV1.compactTempPart, hcbp, ht, hg]
      rfl
    · rw [MonitorV2.compactView, MonitorV2.compactLines, MonitorV2.compactFirstLine,
        MonitorV2.compactTempPart, hcbp, ht, hg]
      rfl

/-- Witness for C5 at the sentinel record with empty temperatures and
groups. -/
theorem c5_witness :
    batterySection {} = renderBold "Battery" ++ "\n" ++ "  No battery information\n" ∧
    ¬ strSub "0%" (batterySection {}) ∧
    MonitorV1.compactView ⟨[], {}, [], ⟨9, 8, 7⟩, 0, 0⟩ = compactFooter ⟨9, 8, 7⟩ ∧
    MonitorV2.compactView ⟨[], {}, [], ⟨9, 8, 7⟩, 0, 0⟩ = compactFooter ⟨9, 8, 7⟩ := by
  have h := c5_absent_battery_sentinel ⟨[], {}, [], ⟨9, 8, 7⟩, 0, 0⟩ rfl rfl
  exact ⟨h.1, h.2.1, (h.2.2.2.2 rfl rfl).1, (h.2.2.2.2 rfl rfl).2⟩

/-- C6: threshold comparisons are inclusive everywhere: a temperature value
exactly equal to the high threshold is classified warning by the adapter and
colored orange (not green) by the renderers, and a value exactly equal to the
critical threshold is classified critical and colored red (not orange). -/
theorem c6_thresholds_inclusive (t : TemperatureSensor) :
    (t.Value = t.High → TemperatureSensorAdapter.Warning t = true) ∧
    (t.Value = t.Critical → TemperatureSensorAdapter.Critical t = true) ∧
    (t.Value = t.High → t.Value < t.Critical →
      tempColor t.Value t.High t.Critical = "214") ∧
    (t.Value = t.Critical → tempColor t.Value t.High t.Critical = "9") := by
  refine ⟨fun h => ?_, fun h => ?_, fun h hlt => ?_, fun h => ?_⟩
  · simp [TemperatureSensorAdapter.Warning, h]
  · simp [TemperatureSensorAdapter.Critical, h]
  · rw [tempColor, if_neg (by rw [h] at hlt ⊢; exact not_le.2 hlt),
      if_pos (by rw [h])]
  · rw [tempColor, if_pos (by rw [h])]

/-- Witness for C6 at the boundary inputs 80/80/100 and 100/80/100. -/
theorem c6_witness :
    TemperatureSensorAdapter.Warning ⟨"cpu", 80, 80, 100, ""⟩ = true ∧
    tempColor 80 80 100 = "214" ∧
    TemperatureSensorAdapter.Critical ⟨"cpu", 100, 80, 100, ""⟩ = true ∧
    tempColor 100 80 100 = "9" :=
  ⟨(c6_thresholds_inclusive ⟨"cpu", 80, 80, 100, ""⟩).1 rfl,
   (c6_thresholds_inclusive ⟨"cpu", 80, 80, 100, ""⟩).2.2.1 rfl (by decide),
   (c6_thresholds_inclusive ⟨"cpu", 100, 80, 100, ""⟩).2.1 rfl,
   (c6_thresholds_inclusive ⟨"cpu", 100, 80, 100, ""⟩).2.2.2 rfl⟩

/-- C7: a tick replaces the temperature list and battery record with the
fresh data-source snapshots, refreshes every sensor of every extra group with
each sensor's error discarded (each new group is the elementwise post-refresh
state, independent of any other sensor's outcome), sets the last-update
timestamp, and re-arms the timer.  `Monitor.Update` is a total function, so
no sensor or data-source failure can abort the cycle. -/
theorem c7_tick_refresh_cycle (freshTemps : List TemperatureSensor)
    (freshBatt : BatteryStatus) (now tickTime : Time) (m : Monitor) :
    (Monitor.Update freshTemps freshBatt now (Msg.tick tickTime) m).1.temperatureSensors
        = freshTemps ∧
    (Monitor.Update freshTemps freshBatt now (Msg.tick tickTime) m).1.batteryStatus
        = freshBatt ∧
    (Monitor.Update freshTemps freshBatt now (Msg.tick tickTime) m).1.lastUpdate = now ∧
    (Monitor.Update freshTemps freshBatt now (Msg.tick tickTime) m).1.extraGroups
        = m.extraGroups.map (fun g =>
            { g with Sensors := g.Sensors.map fun s => s.Refresh.2 }) ∧
    (Monitor.Update freshTemps freshBatt now (Msg.tick tickTime) m).2 = TeaCmd.tick :=
  ⟨rfl, rfl, rfl, rfl, rfl⟩

/-- C8: a generic sensor's refresh is atomic with respect to failure: with a
non-nil callback, a failing callback leaves the cached triple unchanged and
returns the error, and a succeeding callback returns success and installs the
returned triple. -/
theorem c8_generic_refresh_atomic (g : GenericSensor)
    (f : Unit → Except String (String × Bool × Bool)) (hf : g.refreshFn = some f) :
    (∀ e, f () = Except.error e → g.Refresh = (Except.error e, g)) ∧
    (∀ v w c, f () = Except.ok (v, w, c) →
      g.Refresh = (Except.ok (), { g with value := v, warning := w, critical := c })) := by
  constructor
  · intro e he
    simp [GenericSensor.Refresh, hf, he]
  · intro v w c hok
    simp [GenericSensor.Refresh, hf, hok]

/-- Witness for C8: one failing and one succeeding concrete callback. -/
theorem c8_witness :
    GenericSensor.Refresh
        ⟨"s", "old", false, true, some fun _ => Except.error "boom"⟩ =
      (Except.error "boom",
        ⟨"s", "old", false, true, some fun _ => Except.error "boom"⟩) ∧
    GenericSensor.Refresh
        ⟨"s", "old", false, true, some fun _ => Except.ok ("OK", true, false)⟩ =
      (Except.ok (),
        ⟨"s", "OK", true, false, some fun _ => Except.ok ("OK", true, false)⟩) :=
  ⟨(c8_generic_refresh_atomic _ _ rfl).1 "boom" rfl,
   (c8_generic_refresh_atomic _ _ rfl).2 "OK" true false rfl⟩

/-- C10 (implicit): a generic sensor with a nil refresh callback refreshes to
a success result with the sensor entirely unchanged. -/
theorem c10_nil_callback_noop (g : GenericSensor) (h : g.refreshFn = none) :
    g.Refresh = (Except.ok (), g) := by
  rw [GenericSensor.Refresh, h]

/-- C9: when the source reports no power but a positive voltage and a nonzero
current, the battery record's power is derived as voltage × current; a
directly reported nonzero power is kept as read and never overwritten by the
derivation. -/
theorem c9_power_derivation (raw : BatteryRaw) :
    (raw.powerMicro.getD 0 = 0 → raw.voltageMicro.getD 0 > 0 →
      raw.currentMicro.getD 0 ≠ 0 →
      (ReadBatteryStatus true raw).Power =
          (ReadBatteryStatus true raw).Voltage * (ReadBatteryStatus true raw).Current ∧
      (ReadBatteryStatus true raw).Voltage = (raw.voltageMicro.getD 0 : ℚ) / 1000000 ∧
      (ReadBatteryStatus true raw).Current = (raw.currentMicro.getD 0 : ℚ) / 1000000) ∧
    (∀ p : ℤ, raw.powerMicro = some p → p ≠ 0 →
      (ReadBatteryStatus true raw).Power = (p : ℚ) / 1000000) := by
  have hread : ReadBatteryStatus true raw = derivePower (rawBatteryRecord raw) := rfl
  constructor
  · intro hp hv hc
    have hP0 : (rawBatteryRecord raw).Power = 0 := by
      show ((raw.powerMicro.getD 0 : ℤ) : ℚ) / 1000000 = 0
      rw [hp]
      norm_num
    have hsv : (rawBatteryRecord raw).Voltage > 0 := by
      show (0 : ℚ) < ((raw.voltageMicro.getD 0 : ℤ) : ℚ) / 1000000
      have : (0 : ℚ) < ((raw.voltageMicro.getD 0 : ℤ) : ℚ) := by exact_mod_cast hv
      positivity
    have hsc : (rawBatteryRecord raw).Current ≠ 0 := by
      show ((raw.currentMicro.getD 0 : ℤ) : ℚ) / 1000000 ≠ 0
      exact div_ne_zero (Int.cast_ne_zero.2 hc) (by norm_num)
    have hderive : derivePower (rawBatteryRecord raw) =
        { rawBatteryRecord raw with
            Power := (rawBatteryRecord raw).Voltage * (rawBatteryRecord raw).Current } := by
      rw [derivePower, if_pos ⟨hP0, hsv, hsc⟩]
    rw [hread, hderive]
    exact ⟨rfl, rfl, rfl⟩
  · intro p hp hne
    have hPp : (rawBatteryRecord raw).Power = (p : ℚ) / 1000000 := by
      show ((raw.powerMicro.getD 0 : ℤ) : ℚ) / 1000000 = (p : ℚ) / 1000000
      rw [hp]
      rfl
    have hPne : (rawBatteryRecord raw).Power ≠ 0 := by
      rw [hPp]
      exact div_ne_zero (Int.cast_ne_zero.2 hne) (by norm_num)
    have hderive : derivePower (rawBatteryRecord raw) = rawBatteryRecord raw := by
      rw [derivePower, if_neg]
      exact fun h => hPne h.1
    rw [hread, hderive, hPp]

/-- Witness for C9: 12 V and 2 A with no reported power derive 24 W, and a
directly reported 5 000 000 µW stays 5 W even with voltage and current
present. -/
theorem c9_witness :
    (ReadBatteryStatus true
        { voltageMicro := some 12000000, currentMicro := some 2000000 }).Power = 24 ∧
    (ReadBatteryStatus true
        { voltageMicro := some 12000000, currentMicro := some 2000000,
          powerMicro := some 5000000 }).Power = 5 := by
  constructor
  · obtain ⟨h1, h2, h3⟩ :=
      (c9_power_derivation
        { voltageMicro := some 12000000, currentMicro := some 2000000 }).1
        rfl (by decide) (by decide)
    rw [h1, h2, h3]
    norm_num
  · have h :=
      (c9_power_derivation
        { voltageMicro := some 12000000, currentMicro := some 2000000,
          powerMicro := some 5000000 }).2 5000000 rfl (by decide)
    rw [h]
    norm_num

/-- Witness for C10 at a concrete callback-free sensor. -/
theorem c10_witness :
    GenericSensor.Refresh ⟨"k", "v", true, false, none⟩ =
      (Except.ok (), ⟨"k", "v", true, false, none⟩) :=
  c10_nil_callback_noop _ rfl

end SysMon
